import Mathlib

/-!
Verification of the somana-agent host agent.

The Go sources are shallowly embedded:
* `internal/services` systemd monitor (`getSystemdServices`, `reportSystemdServices`,
  `SystemdMonitorService.Start/Stop`) — strings are modelled as `List Char`,
  `strings.Fields` / `strings.TrimSpace` / `strings.Join` / `strings.Split`
  are re-implemented below following the Go library semantics;
* `internal/services` host registration (`registerHost`, `Start`, `Stop`,
  `startHeartbeat`, `getLocalIP`) — the HTTP client is an oracle
  (a function from request to `Except` transport-error response), and the
  side effects (lookup calls, create calls, config saves) are counted
  explicitly in the returned state;
* `cmd/server/main.go` polling-startup goroutine — modelled as a recursion over
  the finite trace of values observed by `GetHostRid`, with the `sync.Once`
  latch as a boolean field.
-/

/-! ## Go string primitives (on `List Char`) -/

/-- `unicode.IsSpace` restricted to the Latin-1 range, as used by
`strings.Fields` and `strings.TrimSpace`. -/
def isGoSpace (c : Char) : Bool :=
  c = '\t' || c = '\n' || c = '\x0B' || c = '\x0C' || c = '\r' || c = ' ' ||
  c = '\u0085' || c = '\u00A0'

/-- Accumulator worker for `goFields`: `acc` holds the reversed current field. -/
def goFieldsAux : List Char → List Char → List (List Char)
  | acc, [] => if acc.isEmpty then [] else [acc.reverse]
  | acc, c :: cs =>
    if isGoSpace c then
      if acc.isEmpty then goFieldsAux [] cs
      else acc.reverse :: goFieldsAux [] cs
    else goFieldsAux (c :: acc) cs

/-- Go `strings.Fields`: split around runs of whitespace, dropping empty fields. -/
def goFields (s : List Char) : List (List Char) :=
  goFieldsAux [] s

/-- Go `strings.TrimLeft` for whitespace (helper for `goTrimSpace`). -/
def goTrimLeft : List Char → List Char
  | [] => []
  | c :: cs => if isGoSpace c then goTrimLeft cs else c :: cs

/-- Trailing-whitespace trim, via reversal. -/
def goTrimRight (s : List Char) : List Char :=
  (goTrimLeft s.reverse).reverse

/-- Go `strings.TrimSpace`. -/
def goTrimSpace (s : List Char) : List Char :=
  goTrimRight (goTrimLeft s)

/-- Go `strings.Join(ws, " ")`. -/
def goJoinSpace : List (List Char) → List Char
  | [] => []
  | [w] => w
  | w :: ws => w ++ ' ' :: goJoinSpace ws

/-- Accumulator worker for `goSplitNL`. -/
def goSplitNLAux : List Char → List Char → List (List Char)
  | acc, [] => [acc.reverse]
  | acc, c :: cs =>
    if c = '\n' then acc.reverse :: goSplitNLAux [] cs
    else goSplitNLAux (c :: acc) cs

/-- Go `strings.Split(s, "\n")`: empty pieces are retained. -/
def goSplitNL (s : List Char) : List (List Char) :=
  goSplitNLAux [] s

/-! ## Unit collector (`getSystemdServices` in the systemd monitor) -/

/-- One systemd unit record (`generated.SystemdUnit`). -/
structure SystemdUnit where
  unit : List Char
  load : List Char
  active : List Char
  sub : List Char
  description : List Char
  deriving Repr, DecidableEq

/-- The per-line body of the parsing loop in `getSystemdServices`:
trim the line, skip it when blank, split into whitespace-separated fields,
build a record when at least four fields are present (the description is the
re-join of fields 5.. with single spaces, empty when absent), and skip the
line otherwise. -/
def parseLine (line : List Char) : Option SystemdUnit :=
  let l := goTrimSpace line
  if l = [] then none
  else
    let parts := goFields l
    if parts.length < 5 then
      if parts.length ≥ 4 then
        some { unit := parts.getD 0 [], load := parts.getD 1 [],
               active := parts.getD 2 [], sub := parts.getD 3 [],
               description := goJoinSpace (parts.drop 4) }
      else none
    else
      some { unit := parts.getD 0 [], load := parts.getD 1 [],
             active := parts.getD 2 [], sub := parts.getD 3 [],
             description := goJoinSpace (parts.drop 4) }

/-- The parsing loop of `getSystemdServices` over the split lines, appending
one record per successfully parsed line. -/
def parseLines : List (List Char) → List SystemdUnit
  | [] => []
  | l :: ls =>
    match parseLine l with
    | none => parseLines ls
    | some u => u :: parseLines ls

/-- The record a well-formed field list yields (first four fields in order,
then the space-rejoined remainder as description). -/
def mkUnitRecord (parts : List (List Char)) : SystemdUnit :=
  { unit := parts.getD 0 [], load := parts.getD 1 [],
    active := parts.getD 2 [], sub := parts.getD 3 [],
    description := goJoinSpace (parts.drop 4) }

/-- Failure modes of `exec.Command(...).Output()` for `systemctl`. -/
inductive ExecErr where
  | exit (code : Int) (stderr : List Char)
  | permission
  | other (msg : List Char)
  deriving Repr, DecidableEq

/-- The error message `getSystemdServices` builds from a failed invocation,
mirroring the Go branch structure (exit-code branch, permission branch,
generic branch). -/
def execErrMsg : ExecErr → List Char
  | ExecErr.exit _ stderr =>
      ("failed to run systemctl: systemctl command failed".data) ++ stderr
  | ExecErr.permission =>
      "permission denied running systemctl".data
  | ExecErr.other msg =>
      ("failed to run systemctl: ".data) ++ msg

/-- `getSystemdServices`: if `systemctl` is not on the path return the empty
list with no error; if the invocation fails return the classified error; on
success trim the output, split it on newlines and run the parsing loop. -/
def getSystemdServices (systemctlOnPath : Bool)
    (runResult : Except ExecErr (List Char)) :
    Except (List Char) (List SystemdUnit) :=
  if !systemctlOnPath then Except.ok []
  else
    match runResult with
    | Except.error e => Except.error (execErrMsg e)
    | Except.ok output => Except.ok (parseLines (goSplitNL (goTrimSpace output)))

/-! ## Reporting pipeline (`reportSystemdServices`) -/

/-- Request body `generated.SystemdServicesRequest`. -/
structure SystemdServicesRequest where
  services : List SystemdUnit
  deriving Repr, DecidableEq

/-- Response to the PUT services call (only the status code matters). -/
structure PutServicesResp where
  statusCode : Nat
  deriving Repr, DecidableEq

/-- Environment of one monitor tick: whether `systemctl` resolves on the path,
the outcome of running it, and the inventory API's reaction to the PUT. -/
structure MonitorEnv where
  systemctlOnPath : Bool
  runResult : Except ExecErr (List Char)
  putServices : SystemdServicesRequest → Except (List Char) PutServicesResp

/-- Observable outcome of one `reportSystemdServices` tick. -/
structure ReportOutcome where
  putCalled : Bool
  putBody : SystemdServicesRequest
  reportedOk : Bool
  deriving Repr, DecidableEq

/-- `reportSystemdServices`: collect the units, degrade any collection error
to the empty list, and always submit the PUT call with the resulting list;
a transport failure or a non-200 status on the PUT is logged and the tick
ends without further effect. -/
def reportSystemdServices (env : MonitorEnv) : ReportOutcome :=
  let services :=
    match getSystemdServices env.systemctlOnPath env.runResult with
    | Except.error _ => ([] : List SystemdUnit)
    | Except.ok svcs => svcs
  let body : SystemdServicesRequest := { services := services }
  match env.putServices body with
  | Except.error _ => { putCalled := true, putBody := body, reportedOk := false }
  | Except.ok resp =>
      { putCalled := true, putBody := body, reportedOk := resp.statusCode = 200 }

/-! ## Host registration (`registerHost` and friends) -/

/-- The `host_registration` section of the config file. -/
structure HostRegistrationConfig where
  sprinterURL : String
  hostRid : String
  deriving Repr, DecidableEq

/-- `config.Config`, restricted to the fields the registrar touches. -/
structure Config where
  hostRegistration : HostRegistrationConfig
  deriving Repr, DecidableEq

/-- Body of a successful host lookup / creation response (`client.HostResponse`);
only the assigned identifier is relevant. -/
structure HostResponse where
  hostRid : String
  deriving Repr, DecidableEq

/-- Response of `GetApiV1HostsHostRidWithResponse`: a status code and the
parsed body when the server returned one (`JSON200`). -/
structure GetHostResp where
  statusCode : Nat
  JSON200 : Option HostResponse
  deriving Repr, DecidableEq

/-- Response of `PostApiV1HostsWithResponse`: a status code and the parsed
body when the server returned one (`JSON201`). -/
structure PostHostResp where
  statusCode : Nat
  JSON201 : Option HostResponse
  deriving Repr, DecidableEq

/-- `client.HostCreateRequest`. -/
structure HostCreateRequest where
  hostname : String
  ipAddress : String
  osName : String
  osVersion : String
  deriving Repr, DecidableEq

/-- The inventory API as a deterministic oracle: each call either fails at
the transport (`Except.error`) or yields a response. -/
structure Api where
  getHost : String → Except String GetHostResp
  postHost : HostCreateRequest → Except String PostHostResp

/-- Mutable state of `HostRegistrationService`: the config object and the
in-memory resolved identifier (`s.hostRid`, empty when unresolved). -/
structure RegService where
  config : Config
  hostRid : String
  deriving Repr, DecidableEq

/-- Side-effect counters for one `registerHost` call: lookup (GET) calls,
create (POST) calls, and `config.SaveConfig` invocations. -/
structure RegEffects where
  lookupCalls : Nat
  createCalls : Nat
  configSaves : Nat
  deriving Repr, DecidableEq

/-- Result of `registerHost`: the returned error (if any), the service state
after the call, and the effect counters. -/
structure RegResult where
  error : Option String
  service : RegService
  effects : RegEffects
  deriving Repr, DecidableEq

/-- The OS-name normalization at the head of the creation path:
`runtime.GOOS`, with `darwin` rewritten to `macOS`. -/
def normalizedOSName (goos : String) : String :=
  if goos = "darwin" then "macOS" else goos

/-- The creation path of `registerHost` (lines after the persisted-identifier
check): build the request, POST it, require status 201 and a parsed body,
then assign the returned identifier to `s.hostRid`, write it into the
config's persisted field and save the config. `eff` carries the effect
counters accumulated before entering this path. -/
def createHost (api : Api) (svc : RegService)
    (hostname ipAddress osVersion goos : String) (eff : RegEffects) : RegResult :=
  let osName := normalizedOSName goos
  let reqBody : HostCreateRequest :=
    { hostname := hostname, ipAddress := ipAddress,
      osName := osName, osVersion := osVersion }
  match api.postHost reqBody with
  | Except.error e =>
      { error := some ("failed to register host: " ++ e), service := svc,
        effects := { eff with createCalls := eff.createCalls + 1 } }
  | Except.ok resp =>
      if resp.statusCode ≠ 201 then
        { error := some "registration failed with status", service := svc,
          effects := { eff with createCalls := eff.createCalls + 1 } }
      else
        match resp.JSON201 with
        | none =>
            { error := some "no host data in response", service := svc,
              effects := { eff with createCalls := eff.createCalls + 1 } }
        | some body =>
            let newRid := body.hostRid
            let svc1 : RegService :=
              { config := { hostRegistration :=
                  { sprinterURL := svc.config.hostRegistration.sprinterURL,
                    hostRid := newRid } },
                hostRid := newRid }
            { error := none, service := svc1,
              effects :=
                { eff with
                  createCalls := eff.createCalls + 1,
                  configSaves := eff.configSaves + 1 } }

/-- `registerHost`: when a persisted identifier is present, GET it; a
transport failure aborts the attempt, a 200 response with a body adopts the
persisted identifier, and anything else falls through to the creation path.
Without a persisted identifier the creation path runs directly. -/
def registerHost (api : Api) (svc : RegService)
    (hostname ipAddress osVersion goos : String) : RegResult :=
  if svc.config.hostRegistration.hostRid ≠ "" then
    match api.getHost svc.config.hostRegistration.hostRid with
    | Except.error e =>
        { error := some ("failed to check host existence: " ++ e), service := svc,
          effects := { lookupCalls := 1, createCalls := 0, configSaves := 0 } }
    | Except.ok resp =>
        if resp.statusCode = 200 ∧ resp.JSON200.isSome then
          { error := none,
            service := { svc with hostRid := svc.config.hostRegistration.hostRid },
            effects := { lookupCalls := 1, createCalls := 0, configSaves := 0 } }
        else
          createHost api svc hostname ipAddress osVersion goos
            { lookupCalls := 1, createCalls := 0, configSaves := 0 }
  else
    createHost api svc hostname ipAddress osVersion goos
      { lookupCalls := 0, createCalls := 0, configSaves := 0 }

/-! ## Local IP resolution (`getLocalIP`) -/

/-- One address record returned by `net.LookupIP`: whether it is a loopback
address, whether `To4()` is non-nil (an IPv4 address), and its textual form. -/
structure IPAddr where
  isLoopback : Bool
  isIPv4 : Bool
  repr : String
  deriving Repr, DecidableEq

/-- The selection loop of `getLocalIP`: the first address that is neither
loopback nor missing an IPv4 form wins; with no such address the loopback
literal is returned. -/
def firstNonLoopbackIPv4 : List IPAddr → String
  | [] => "127.0.0.1"
  | a :: rest =>
    if !a.isLoopback && a.isIPv4 then a.repr else firstNonLoopbackIPv4 rest

/-- OS-introspection environment for `HostRegistrationService.Start`:
the hostname lookup, the DNS resolution of a hostname, the OS-version
probe, and `runtime.GOOS`. -/
structure SysEnv where
  hostnameRes : Except String String
  lookupIP : String → Except String (List IPAddr)
  osVersionRes : Except String String
  goos : String

/-- `getLocalIP`: resolve the local hostname, look its addresses up, and
pick with `firstNonLoopbackIPv4`; either introspection failure is returned
as an error. -/
def getLocalIP (env : SysEnv) : Except String String :=
  match env.hostnameRes with
  | Except.error e => Except.error e
  | Except.ok hostname =>
    match env.lookupIP hostname with
    | Except.error e => Except.error e
    | Except.ok addrs => Except.ok (firstNonLoopbackIPv4 addrs)

/-! ## Service startup (`HostRegistrationService.Start`) -/

/-- Observable outcome of `HostRegistrationService.Start`: the returned
error, the service state afterwards, whether `registerHost` was invoked,
whether the heartbeat goroutine was launched, and the registrar's effect
counters. -/
structure StartOutcome where
  error : Option String
  service : RegService
  registerCalled : Bool
  heartbeatStarted : Bool
  effects : RegEffects
  deriving Repr, DecidableEq

/-- `HostRegistrationService.Start`: with an empty registration URL the
whole lifecycle is skipped with a nil error; otherwise hostname and IP
resolution failures abort with an error, the OS-version probe degrades to
"Unknown", `registerHost` runs, and only its success launches the
heartbeat goroutine. -/
def hostRegServiceStart (env : SysEnv) (api : Api) (svc : RegService) :
    StartOutcome :=
  if svc.config.hostRegistration.sprinterURL = "" then
    { error := none, service := svc, registerCalled := false,
      heartbeatStarted := false,
      effects := { lookupCalls := 0, createCalls := 0, configSaves := 0 } }
  else
    match env.hostnameRes with
    | Except.error e =>
        { error := some ("failed to get hostname: " ++ e), service := svc,
          registerCalled := false, heartbeatStarted := false,
          effects := { lookupCalls := 0, createCalls := 0, configSaves := 0 } }
    | Except.ok hostname =>
      match getLocalIP env with
      | Except.error e =>
          { error := some ("failed to get IP address: " ++ e), service := svc,
            registerCalled := false, heartbeatStarted := false,
            effects := { lookupCalls := 0, createCalls := 0, configSaves := 0 } }
      | Except.ok ipAddress =>
        let osVersion :=
          match env.osVersionRes with
          | Except.error _ => "Unknown"
          | Except.ok v => v
        let r := registerHost api svc hostname ipAddress osVersion env.goos
        match r.error with
        | some e =>
            { error := some ("failed to register host: " ++ e),
              service := r.service, registerCalled := true,
              heartbeatStarted := false, effects := r.effects }
        | none =>
            { error := none, service := r.service, registerCalled := true,
              heartbeatStarted := true, effects := r.effects }

/-! ## Heartbeat loop (`startHeartbeat` / `sendHeartbeat`) -/

/-- `sendHeartbeat`: POST the heartbeat addressed by the resolved
identifier; a transport failure or a non-200 status is an error, a 200
status succeeds. The argument is the API's reaction to this one call. -/
def sendHeartbeat (resp : Except String Nat) : Except String Unit :=
  match resp with
  | Except.error e => Except.error ("failed to send heartbeat: " ++ e)
  | Except.ok code =>
      if code ≠ 200 then Except.error "heartbeat failed with status"
      else Except.ok ()

/-- One event observed by the select in `startHeartbeat`: a ticker tick
(carrying the API's reaction to the heartbeat that tick sends) or the stop
channel firing. -/
inductive HBEvent where
  | tick (resp : Except String Nat)
  | stop
  deriving Repr

/-- Whether an event is the stop signal. -/
def isStopEvent : HBEvent → Bool
  | HBEvent.tick _ => false
  | HBEvent.stop => true

/-- `startHeartbeat` over a finite trace of select events, counting attempted
beats: on a tick, `sendHeartbeat` runs and its failure is only logged, the
loop recursing either way; on stop, the loop returns. The result is
(loop returned, beats attempted). -/
def startHeartbeat : List HBEvent → Nat → Bool × Nat
  | [], beats => (false, beats)
  | HBEvent.tick resp :: rest, beats =>
    match sendHeartbeat resp with
    | Except.error _ => startHeartbeat rest (beats + 1)
    | Except.ok _ => startHeartbeat rest (beats + 1)
  | HBEvent.stop :: _, beats => (true, beats)

/-! ## Stop signals (`Stop` on both services) -/

/-- State of an unbuffered Go channel with respect to `close`. -/
inductive ChanState where
  | opened
  | closed
  deriving Repr, DecidableEq

/-- Run-time panics the stop paths can hit. -/
inductive GoPanic where
  | closeOfClosedChannel
  deriving Repr, DecidableEq

/-- Go `close(ch)`: closing an already-closed channel panics. -/
def closeChan : ChanState → Except GoPanic ChanState
  | ChanState.opened => Except.ok ChanState.closed
  | ChanState.closed => Except.error GoPanic.closeOfClosedChannel

/-- `SystemdMonitorService.Stop`: guarded only by the host identifier being
non-empty; when the guard holds it closes the stop channel. -/
def systemdMonitorServiceStop (hostRid : String) (ch : ChanState) :
    Except GoPanic ChanState :=
  if hostRid ≠ "" then closeChan ch else Except.ok ch

/-- `HostRegistrationService.Stop`: guarded only by the registration URL
being non-empty; when the guard holds it closes the stop channel. -/
def hostRegServiceStop (sprinterURL : String) (ch : ChanState) :
    Except GoPanic ChanState :=
  if sprinterURL ≠ "" then closeChan ch else Except.ok ch

/-! ## Startup orchestrator (polling variant of `main`) -/

/-- `SystemdMonitorService.Start`: whether the monitor loop goroutine is
launched (the empty-identifier guard skips it; the returned error is nil
either way). -/
def systemdMonitorServiceStart (hostRid : String) : Bool :=
  if hostRid = "" then false else true

/-- State of the polling goroutine in `main`: whether the `sync.Once` has
fired, and the identifier values the monitor service was created and
started with. -/
structure PollState where
  onceFired : Bool
  starts : List String
  deriving Repr, DecidableEq

/-- The polling goroutine of the polling-startup `main`, over the finite
trace of values `GetHostRid` returns at successive polls: an empty value
sleeps and polls again; a non-empty value runs the `sync.Once` body (which
starts the monitor with that value when the API client is non-nil) and then
exits the goroutine. -/
def pollLoop (clientPresent : Bool) : List String → PollState → PollState
  | [], st => st
  | rid :: rest, st =>
    if rid ≠ "" then
      if st.onceFired then st
      else if clientPresent then
        { onceFired := true, starts := st.starts ++ [rid] }
      else { st with onceFired := true }
    else pollLoop clientPresent rest st

/-- The polling goroutine's initial state. -/
def pollInit : PollState :=
  { onceFired := false, starts := [] }

/-! ## Concrete fixtures (oracles and states used to instantiate theorems) -/

/-- An API oracle on which the persisted identifier still resolves: every
lookup succeeds with a body carrying identifier `h1`, every creation
succeeds with a body carrying identifier `h2`. -/
def apiFix : Api :=
  { getHost := fun _ => Except.ok { statusCode := 200, JSON200 := some { hostRid := "h1" } },
    postHost := fun _ => Except.ok { statusCode := 201, JSON201 := some { hostRid := "h2" } } }

/-- An API oracle with no existing hosts: lookups return 404 without a body,
creations succeed with a body carrying identifier `h1`. -/
def apiCreate : Api :=
  { getHost := fun _ => Except.ok { statusCode := 404, JSON200 := none },
    postHost := fun _ => Except.ok { statusCode := 201, JSON201 := some { hostRid := "h1" } } }

/-- An API oracle whose transport always fails. -/
def apiDown : Api :=
  { getHost := fun _ => Except.error "connection refused",
    postHost := fun _ => Except.error "connection refused" }

/-- A service state whose config persists identifier `h1`. -/
def svcFix : RegService :=
  { config := { hostRegistration := { sprinterURL := "http:sprinter", hostRid := "h1" } },
    hostRid := "" }

/-- A service state whose config has no persisted identifier. -/
def svcNew : RegService :=
  { config := { hostRegistration := { sprinterURL := "http:sprinter", hostRid := "" } },
    hostRid := "" }

/-- A service state with an empty registration endpoint URL. -/
def svcUnconfigured : RegService :=
  { config := { hostRegistration := { sprinterURL := "", hostRid := "" } },
    hostRid := "" }

/-- An OS-introspection environment whose hostname resolves to a loopback
address followed by a routable IPv4 address. -/
def sysEnvFix : SysEnv :=
  { hostnameRes := Except.ok "box1",
    lookupIP := fun _ =>
      Except.ok [{ isLoopback := true, isIPv4 := true, repr := "127.0.0.1" },
                 { isLoopback := false, isIPv4 := true, repr := "10.0.0.5" }],
    osVersionRes := Except.ok "Ubuntu 22.04",
    goos := "linux" }

/-- A monitor-tick environment in which `systemctl` is absent from the
execution path and the inventory accepts the PUT. -/
def monitorEnvNoBinary : MonitorEnv :=
  { systemctlOnPath := false,
    runResult := Except.ok [],
    putServices := fun _ => Except.ok { statusCode := 200 } }

/-! ## Helper lemmas: Go string functions -/

theorem goFieldsAux_all_space :
    ∀ (t acc : List Char), (∀ c ∈ t, isGoSpace c = true) →
      goFieldsAux acc t = if acc.isEmpty then [] else [acc.reverse]
  | [], acc, _ => by simp [goFieldsAux]
  | c :: t, acc, h => by
    have hc : isGoSpace c = true := h c (List.mem_cons_self c t)
    have ih : goFieldsAux [] t = [] := by
      simpa using
        goFieldsAux_all_space t [] (fun x hx => h x (List.mem_cons_of_mem c hx))
    cases acc with
    | nil => simp [goFieldsAux, hc, ih]
    | cons a as => simp [goFieldsAux, hc, ih]

theorem goFieldsAux_append_space :
    ∀ (s acc t : List Char), (∀ c ∈ t, isGoSpace c = true) →
      goFieldsAux acc (s ++ t) = goFieldsAux acc s
  | [], acc, t, h => by
    rw [List.nil_append, goFieldsAux_all_space t acc h]
    rfl
  | c :: s, acc, t, h => by
    simp only [List.cons_append, goFieldsAux, List.append_eq]
    rw [goFieldsAux_append_space s [] t h,
        goFieldsAux_append_space s (c :: acc) t h]

theorem goTrimLeft_decomp :
    ∀ s : List Char, ∃ t, (∀ c ∈ t, isGoSpace c = true) ∧ s = t ++ goTrimLeft s
  | [] => ⟨[], by simp, by simp [goTrimLeft]⟩
  | c :: s => by
    by_cases hc : isGoSpace c = true
    · obtain ⟨t, ht, hs⟩ := goTrimLeft_decomp s
      refine ⟨c :: t, ?_, ?_⟩
      · intro x hx
        rcases List.mem_cons.mp hx with hx | hx
        · exact hx ▸ hc
        · exact ht x hx
      · simp only [goTrimLeft, hc, if_true, List.cons_append]
        exact congrArg (c :: ·) hs
    · exact ⟨[], by simp, by simp [goTrimLeft, hc]⟩

theorem goFields_trimRight (s : List Char) :
    goFields (goTrimRight s) = goFields s := by
  obtain ⟨t, ht, hs⟩ := goTrimLeft_decomp s.reverse
  have hsplit : s = goTrimRight s ++ t.reverse := by
    have := congrArg List.reverse hs
    simpa [goTrimRight] using this
  have htr : ∀ c ∈ t.reverse, isGoSpace c = true := by
    intro c hc
    exact ht c (List.mem_reverse.mp hc)
  calc goFields (goTrimRight s)
      = goFieldsAux [] (goTrimRight s ++ t.reverse) :=
        (goFieldsAux_append_space (goTrimRight s) [] t.reverse htr).symm
    _ = goFields s := by rw [← hsplit]; rfl

theorem goFields_trimLeft :
    ∀ s : List Char, goFields (goTrimLeft s) = goFields s
  | [] => rfl
  | c :: s => by
    by_cases hc : isGoSpace c = true
    · have h1 : goTrimLeft (c :: s) = goTrimLeft s := by
        simp [goTrimLeft, hc]
      rw [h1, goFields_trimLeft s]
      show goFields s = goFields (c :: s)
      simp [goFields, goFieldsAux, hc]
    · have h1 : goTrimLeft (c :: s) = c :: s := by
        simp [goTrimLeft, hc]
      rw [h1]

theorem goFields_trimSpace (s : List Char) :
    goFields (goTrimSpace s) = goFields s := by
  rw [goTrimSpace, goFields_trimRight, goFields_trimLeft]

theorem goFields_nil : goFields ([] : List Char) = [] := rfl

theorem parseLine_eq (l : List Char) :
    parseLine l =
      if 4 ≤ (goFields l).length then some (mkUnitRecord (goFields l))
      else none := by
  by_cases h0 : goTrimSpace l = []
  · have hf : goFields l = [] := by
      rw [← goFields_trimSpace l, h0, goFields_nil]
    simp [parseLine, h0, hf]
  · have hf : goFields (goTrimSpace l) = goFields l := goFields_trimSpace l
    simp only [parseLine, hf]
    rw [if_neg h0]
    rcases Nat.lt_or_ge (goFields l).length 5 with h5 | h5
    · by_cases h4 : 4 ≤ (goFields l).length
      · rw [if_pos h5, if_pos h4, if_pos h4]
        rfl
      · rw [if_pos h5, if_neg h4, if_neg h4]
    · have h4 : 4 ≤ (goFields l).length := by omega
      rw [if_neg (show ¬ (goFields l).length < 5 by omega), if_pos h4]
      rfl

theorem parseLines_append (xs ys : List (List Char)) :
    parseLines (xs ++ ys) = parseLines xs ++ parseLines ys := by
  induction xs with
  | nil => rfl
  | cons l ls ih =>
    simp only [List.cons_append, parseLines]
    cases parseLine l with
    | none => exact ih
    | some u => simp [ih]

/-! ## Helper lemmas: registration, heartbeat, orchestrator -/

theorem firstNonLoopbackIPv4_eq :
    ∀ addrs : List IPAddr,
      firstNonLoopbackIPv4 addrs =
        match addrs.find? (fun a => !a.isLoopback && a.isIPv4) with
        | some a => a.repr
        | none => "127.0.0.1"
  | [] => rfl
  | a :: rest => by
    by_cases h : (!a.isLoopback && a.isIPv4) = true
    · simp [firstNonLoopbackIPv4, List.find?_cons, h]
    · simp only [firstNonLoopbackIPv4, List.find?_cons, h, if_neg]
      rw [firstNonLoopbackIPv4_eq rest]
      simp [h]

theorem startHeartbeat_spec :
    ∀ (evs : List HBEvent) (n : Nat),
      startHeartbeat evs n =
        (evs.any isStopEvent,
         n + (evs.takeWhile (fun e => !(isStopEvent e))).length)
  | [], n => by simp [startHeartbeat]
  | HBEvent.tick resp :: rest, n => by
    have ih := startHeartbeat_spec rest (n + 1)
    cases hsend : sendHeartbeat resp with
    | error e =>
      simp only [startHeartbeat, hsend, ih, List.any_cons, List.takeWhile_cons,
        isStopEvent, Bool.not_false, if_true, List.length_cons, Bool.false_or]
      rw [Prod.mk.injEq]
      exact ⟨rfl, by omega⟩
    | ok u =>
      simp only [startHeartbeat, hsend, ih, List.any_cons, List.takeWhile_cons,
        isStopEvent, Bool.not_false, if_true, List.length_cons, Bool.false_or]
      rw [Prod.mk.injEq]
      exact ⟨rfl, by omega⟩
  | HBEvent.stop :: rest, n => by
    simp [startHeartbeat, isStopEvent, List.takeWhile_cons]

theorem pollLoop_starts_cases :
    ∀ (cp : Bool) (trace : List String) (st : PollState),
      (pollLoop cp trace st).starts = st.starts ∨
      (st.onceFired = false ∧
        ∃ rid, rid ≠ "" ∧ (pollLoop cp trace st).starts = st.starts ++ [rid])
  | _, [], _ => Or.inl rfl
  | cp, rid :: rest, st => by
    by_cases hr : rid ≠ ""
    · by_cases ho : st.onceFired
      · left
        simp [pollLoop, hr, ho]
      · by_cases hc : cp
        · right
          refine ⟨by simpa using ho, rid, hr, ?_⟩
          simp [pollLoop, hr, ho, hc]
        · left
          simp [pollLoop, hr, ho, hc]
    · have hstep : pollLoop cp (rid :: rest) st = pollLoop cp rest st := by
        simp [pollLoop, hr]
      rw [hstep]
      exact pollLoop_starts_cases cp rest st

theorem createHost_spec (api : Api) (svc : RegService)
    (hostname ipAddress osVersion goos : String) (eff : RegEffects)
    (presp : PostHostResp)
    (hpost : api.postHost
        { hostname := hostname, ipAddress := ipAddress,
          osName := normalizedOSName goos, osVersion := osVersion } =
        Except.ok presp) :
    (createHost api svc hostname ipAddress osVersion goos eff).effects.createCalls
        = eff.createCalls + 1 ∧
    (((createHost api svc hostname ipAddress osVersion goos eff).error = none) ↔
        (presp.statusCode = 201 ∧ presp.JSON201.isSome)) ∧
    (∀ body : HostResponse, presp.statusCode = 201 → presp.JSON201 = some body →
      (createHost api svc hostname ipAddress osVersion goos eff).service.hostRid
          = body.hostRid ∧
      (createHost api svc hostname ipAddress osVersion goos
          eff).service.config.hostRegistration.hostRid = body.hostRid ∧
      (createHost api svc hostname ipAddress osVersion goos eff).effects.configSaves
          = eff.configSaves + 1) ∧
    (¬ (presp.statusCode = 201 ∧ presp.JSON201.isSome) →
      (createHost api svc hostname ipAddress osVersion goos eff).service = svc ∧
      (createHost api svc hostname ipAddress osVersion goos eff).effects.configSaves
          = eff.configSaves) := by
  by_cases h201 : presp.statusCode = 201
  · cases hb : presp.JSON201 with
    | none =>
      simp [createHost, hpost, h201, hb]
    | some body =>
      simp [createHost, hpost, h201, hb]
  · simp [createHost, hpost, h201]

/-! ## Claim theorems -/

/-- Claim C1: under the polling startup variant, the dependent systemd
monitor is started at most once per execution and never with an empty
resolved host identifier, whatever finite trace of identifier values the
availability check observes — even when it observes a non-empty identifier
on multiple consecutive polls; moreover `SystemdMonitorService.Start`
itself refuses to launch the monitor loop for an empty identifier. -/
theorem claim_C1 (clientPresent : Bool) (trace : List String) :
    ((pollLoop clientPresent trace pollInit).starts).length ≤ 1 ∧
    (∀ rid ∈ (pollLoop clientPresent trace pollInit).starts, rid ≠ "") ∧
    systemdMonitorServiceStart "" = false := by
  refine ⟨?_, ?_, rfl⟩
  · rcases pollLoop_starts_cases clientPresent trace pollInit with h | ⟨-, rid, -, h⟩
    · rw [h]
      simp [pollInit]
    · rw [h]
      simp [pollInit]
  · intro rid hmem
    rcases pollLoop_starts_cases clientPresent trace pollInit with h | ⟨-, r, hr, h⟩
    · rw [h] at hmem
      simp [pollInit] at hmem
    · rw [h] at hmem
      simp [pollInit] at hmem
      exact hmem ▸ hr

/-- Witness for C1: on the trace where the identifier is first absent and
then observed non-empty twice, the monitor is started at most once and the
started identifier is non-empty. -/
theorem claim_C1_witness :
    ((pollLoop true ["", "h1", "h1"] pollInit).starts).length ≤ 1 ∧
    ("h1" : String) ≠ "" :=
  ⟨(claim_C1 true ["", "h1", "h1"]).1,
   (claim_C1 true ["", "h1", "h1"]).2.1 "h1" (by decide)⟩

/-- Claim C4: a non-blank line splitting into five or more
whitespace-separated fields parses to exactly one record taking unit, load,
active and sub from the first four fields and description from the
remaining fields re-joined with single spaces; a line with exactly four
fields parses to a record with empty description; a line with fewer than
four fields yields no record and does not affect the records of any other
line. -/
theorem claim_C4 (line : List Char) :
    (5 ≤ (goFields line).length →
      parseLine line = some
        { unit := (goFields line).getD 0 [], load := (goFields line).getD 1 [],
          active := (goFields line).getD 2 [], sub := (goFields line).getD 3 [],
          description := goJoinSpace ((goFields line).drop 4) }) ∧
    ((goFields line).length = 4 →
      parseLine line = some
        { unit := (goFields line).getD 0 [], load := (goFields line).getD 1 [],
          active := (goFields line).getD 2 [], sub := (goFields line).getD 3 [],
          description := [] }) ∧
    ((goFields line).length < 4 → parseLine line = none) ∧
    (∀ pre post : List (List Char), (goFields line).length < 4 →
      parseLines (pre ++ line :: post) = parseLines (pre ++ post)) := by
  have hchar := parseLine_eq line
  refine ⟨?_, ?_, ?_, ?_⟩
  · intro h5
    rw [hchar, if_pos (by omega : 4 ≤ (goFields line).length)]
    rfl
  · intro h4
    have hdrop : (goFields line).drop 4 = [] := by
      apply List.drop_eq_nil_of_le
      omega
    rw [hchar, if_pos (by omega : 4 ≤ (goFields line).length)]
    simp [mkUnitRecord, hdrop, goJoinSpace]
  · intro hlt
    rw [hchar, if_neg (by omega : ¬ 4 ≤ (goFields line).length)]
  · intro pre post hlt
    have hnone : parseLine line = none := by
      rw [hchar, if_neg (by omega : ¬ 4 ≤ (goFields line).length)]
    rw [parseLines_append, parseLines_append]
    have : parseLines (line :: post) = parseLines post := by
      simp [parseLines, hnone]
    rw [this]

/-- Witness for C4: the spec's example lines — a five-plus-field line with a
two-word description, a four-field line with an empty description, and a
two-field line that is skipped. -/
theorem claim_C4_witness :
    parseLine ("sshd.service loaded active running OpenSSH server".data) =
      some { unit := "sshd.service".data, load := "loaded".data,
             active := "active".data, sub := "running".data,
             description := "OpenSSH server".data } ∧
    parseLine ("cron.service loaded active running".data) =
      some { unit := "cron.service".data, load := "loaded".data,
             active := "active".data, sub := "running".data,
             description := [] } ∧
    parseLine ("bad line".data) = none := by
  refine ⟨?_, ?_, ?_⟩
  · have h := (claim_C4 ("sshd.service loaded active running OpenSSH server".data)).1
      (by decide)
    rw [h]
    decide
  · have h := (claim_C4 ("cron.service loaded active running".data)).2.1 (by decide)
    rw [h]
    decide
  · exact (claim_C4 ("bad line".data)).2.2.1 (by decide)

/-- Claim C5: unit collection never aborts the reporting tick — when the
query binary is absent from the path, or the invocation fails, the tick
still submits the report call, with an empty services list in its payload. -/
theorem claim_C5 (env : MonitorEnv)
    (h : env.systemctlOnPath = false ∨ ∃ e, env.runResult = Except.error e) :
    (reportSystemdServices env).putCalled = true ∧
    (reportSystemdServices env).putBody.services = [] := by
  have hsvc :
      (match getSystemdServices env.systemctlOnPath env.runResult with
       | Except.error _ => ([] : List SystemdUnit)
       | Except.ok svcs => svcs) = [] := by
    rcases h with h | ⟨e, he⟩
    · simp [getSystemdServices, h]
    · by_cases hp : env.systemctlOnPath
      · simp [getSystemdServices, hp, he]
      · simp [getSystemdServices, hp]
  unfold reportSystemdServices
  rw [hsvc]
  cases hput : env.putServices { services := [] } with
  | error e => simp [hput]
  | ok resp => simp [hput]

/-- Witness for C5: with `systemctl` absent, the tick submits the PUT call
with an empty list payload. -/
theorem claim_C5_witness :
    (reportSystemdServices monitorEnvNoBinary).putCalled = true ∧
    (reportSystemdServices monitorEnvNoBinary).putBody.services = [] :=
  claim_C5 monitorEnvNoBinary (Or.inl rfl)

/-- Claim C6: the heartbeat loop never terminates because of a failed beat —
over any finite trace of select events it returns exactly when a stop signal
occurs in the trace, and the number of heartbeat attempts equals the number
of ticks before the first stop, independent of each beat's outcome; in
particular a tick whose send fails leaves the loop running like any other
tick. -/
theorem claim_C6 (evs : List HBEvent) (n : Nat) :
    startHeartbeat evs n =
      (evs.any isStopEvent,
       n + (evs.takeWhile (fun e => !(isStopEvent e))).length) ∧
    (∀ (resp : Except String Nat) (rest : List HBEvent) (m : Nat),
      startHeartbeat (HBEvent.tick resp :: rest) m = startHeartbeat rest (m + 1)) := by
  refine ⟨startHeartbeat_spec evs n, ?_⟩
  intro resp rest m
  cases hsend : sendHeartbeat resp with
  | error e => simp [startHeartbeat, hsend]
  | ok u => simp [startHeartbeat, hsend]

/-- Claim C7 counterexample: calling `Stop` twice on a systemd monitor with
a non-empty identifier, or on a registration service with a configured
endpoint, panics on the second call (closing an already-closed channel),
contradicting the claim that the second call never panics. -/
theorem claim_C7_counterexample :
    systemdMonitorServiceStop "host-1" ChanState.opened = Except.ok ChanState.closed ∧
    systemdMonitorServiceStop "host-1" ChanState.closed =
      Except.error GoPanic.closeOfClosedChannel ∧
    hostRegServiceStop "http:sprinter" ChanState.opened = Except.ok ChanState.closed ∧
    hostRegServiceStop "http:sprinter" ChanState.closed =
      Except.error GoPanic.closeOfClosedChannel :=
  ⟨rfl, rfl, rfl, rfl⟩

/-- Claim C7 (amended): a second `Stop` is a no-op only when the service's
guard condition fails (empty host identifier for the monitor, empty
endpoint URL for the registration service); whenever the guard holds, the
first `Stop` closes the stop channel and a second `Stop` closes an
already-closed channel and panics. -/
theorem claim_C7_amended (hostRid sprinterURL : String) (ch : ChanState) :
    (hostRid = "" → systemdMonitorServiceStop hostRid ch = Except.ok ch) ∧
    (hostRid ≠ "" →
      systemdMonitorServiceStop hostRid ChanState.opened = Except.ok ChanState.closed ∧
      systemdMonitorServiceStop hostRid ChanState.closed =
        Except.error GoPanic.closeOfClosedChannel) ∧
    (sprinterURL = "" → hostRegServiceStop sprinterURL ch = Except.ok ch) ∧
    (sprinterURL ≠ "" →
      hostRegServiceStop sprinterURL ChanState.opened = Except.ok ChanState.closed ∧
      hostRegServiceStop sprinterURL ChanState.closed =
        Except.error GoPanic.closeOfClosedChannel) := by
  refine ⟨?_, ?_, ?_, ?_⟩
  · intro h
    simp [systemdMonitorServiceStop, h]
  · intro h
    exact ⟨by simp [systemdMonitorServiceStop, h, closeChan],
           by simp [systemdMonitorServiceStop, h, closeChan]⟩
  · intro h
    simp [hostRegServiceStop, h]
  · intro h
    exact ⟨by simp [hostRegServiceStop, h, closeChan],
           by simp [hostRegServiceStop, h, closeChan]⟩

/-- Witness for the amended C7: a guarded monitor panics on the second
`Stop`; an unconfigured registration service's `Stop` is a no-op. -/
theorem claim_C7_witness :
    systemdMonitorServiceStop "h" ChanState.closed =
      Except.error GoPanic.closeOfClosedChannel ∧
    hostRegServiceStop "" ChanState.closed = Except.ok ChanState.closed :=
  ⟨((claim_C7_amended "h" "" ChanState.closed).2.1 (by decide)).2,
   (claim_C7_amended "h" "" ChanState.closed).2.2.1 rfl⟩

/-- The reuse path of `registerHost` in isolation: with a persisted
identifier whose lookup returns 200 with a body, the persisted identifier
is adopted, the config is untouched and no create call or config save
happens. -/
theorem registerHost_reuse (api : Api) (svc : RegService)
    (hostname ipAddress osVersion goos : String) (gresp : GetHostResp)
    (hrid : svc.config.hostRegistration.hostRid ≠ "")
    (hget : api.getHost svc.config.hostRegistration.hostRid = Except.ok gresp)
    (hst : gresp.statusCode = 200) (hbody : gresp.JSON200.isSome) :
    registerHost api svc hostname ipAddress osVersion goos =
      { error := none,
        service := { svc with hostRid := svc.config.hostRegistration.hostRid },
        effects := { lookupCalls := 1, createCalls := 0, configSaves := 0 } } := by
  unfold registerHost
  rw [if_pos hrid, hget]
  simp only []
  simp [hst, hbody]

/-- Claim C2: with a persisted identifier whose lookup succeeds with an
entity body, identity resolution adopts that identifier with no create call
and no config save; resolving a second time from the resulting state yields
the same identifier, again with no create call and no config save. -/
theorem claim_C2 (api : Api) (svc : RegService)
    (hostname ipAddress osVersion goos : String) (gresp : GetHostResp)
    (hrid : svc.config.hostRegistration.hostRid ≠ "")
    (hget : api.getHost svc.config.hostRegistration.hostRid = Except.ok gresp)
    (hst : gresp.statusCode = 200) (hbody : gresp.JSON200.isSome) :
    (registerHost api svc hostname ipAddress osVersion goos).error = none ∧
    (registerHost api svc hostname ipAddress osVersion goos).service.hostRid =
      svc.config.hostRegistration.hostRid ∧
    (registerHost api svc hostname ipAddress osVersion goos).effects.createCalls = 0 ∧
    (registerHost api svc hostname ipAddress osVersion goos).effects.configSaves = 0 ∧
    (registerHost api
        (registerHost api svc hostname ipAddress osVersion goos).service
        hostname ipAddress osVersion goos).error = none ∧
    (registerHost api
        (registerHost api svc hostname ipAddress osVersion goos).service
        hostname ipAddress osVersion goos).service.hostRid =
      svc.config.hostRegistration.hostRid ∧
    (registerHost api
        (registerHost api svc hostname ipAddress osVersion goos).service
        hostname ipAddress osVersion goos).effects.createCalls = 0 ∧
    (registerHost api
        (registerHost api svc hostname ipAddress osVersion goos).service
        hostname ipAddress osVersion goos).effects.configSaves = 0 := by
  have h1 := registerHost_reuse api svc hostname ipAddress osVersion goos gresp
    hrid hget hst hbody
  have hcfg :
      ({ svc with hostRid := svc.config.hostRegistration.hostRid } :
        RegService).config = svc.config := rfl
  have h2 := registerHost_reuse api
    { svc with hostRid := svc.config.hostRegistration.hostRid }
    hostname ipAddress osVersion goos gresp
    (by rw [hcfg]; exact hrid) (by rw [hcfg]; exact hget) hst hbody
  rw [h1]
  refine ⟨rfl, rfl, rfl, rfl, ?_, ?_, ?_, ?_⟩ <;> rw [h2]

/-- Witness for C2: on the fixture API where identifier `h1` still resolves,
both resolutions in sequence adopt `h1` and neither issues a create call or
a config save. -/
theorem claim_C2_witness :
    (registerHost apiFix svcFix "box1" "10.0.0.5" "Unknown" "linux").error = none ∧
    (registerHost apiFix svcFix "box1" "10.0.0.5" "Unknown" "linux").service.hostRid =
      svcFix.config.hostRegistration.hostRid ∧
    (registerHost apiFix svcFix "box1" "10.0.0.5" "Unknown" "linux").effects.createCalls = 0 ∧
    (registerHost apiFix svcFix "box1" "10.0.0.5" "Unknown" "linux").effects.configSaves = 0 ∧
    (registerHost apiFix
        (registerHost apiFix svcFix "box1" "10.0.0.5" "Unknown" "linux").service
        "box1" "10.0.0.5" "Unknown" "linux").error = none ∧
    (registerHost apiFix
        (registerHost apiFix svcFix "box1" "10.0.0.5" "Unknown" "linux").service
        "box1" "10.0.0.5" "Unknown" "linux").service.hostRid =
      svcFix.config.hostRegistration.hostRid ∧
    (registerHost apiFix
        (registerHost apiFix svcFix "box1" "10.0.0.5" "Unknown" "linux").service
        "box1" "10.0.0.5" "Unknown" "linux").effects.createCalls = 0 ∧
    (registerHost apiFix
        (registerHost apiFix svcFix "box1" "10.0.0.5" "Unknown" "linux").service
        "box1" "10.0.0.5" "Unknown" "linux").effects.configSaves = 0 :=
  claim_C2 apiFix svcFix "box1" "10.0.0.5" "Unknown" "linux"
    { statusCode := 200, JSON200 := some { hostRid := "h1" } }
    (by decide) rfl rfl rfl

/-- Claim C3: with no persisted identifier (or a lookup that did not find
the host), one resolution issues exactly one create call; the returned
identifier is adopted and written into the config's persisted field exactly
when the response has status 201 and carries a body, and any other status
or a missing body yields an error with the service state unchanged. -/
theorem claim_C3 (api : Api) (svc : RegService)
    (hostname ipAddress osVersion goos : String) (presp : PostHostResp)
    (hno : svc.config.hostRegistration.hostRid = "" ∨
      ∃ gr, api.getHost svc.config.hostRegistration.hostRid = Except.ok gr ∧
        ¬ (gr.statusCode = 200 ∧ gr.JSON200.isSome))
    (hpost : api.postHost
        { hostname := hostname, ipAddress := ipAddress,
          osName := normalizedOSName goos, osVersion := osVersion } =
        Except.ok presp) :
    (registerHost api svc hostname ipAddress osVersion goos).effects.createCalls = 1 ∧
    (((registerHost api svc hostname ipAddress osVersion goos).error = none) ↔
      (presp.statusCode = 201 ∧ presp.JSON201.isSome)) ∧
    (∀ body : HostResponse, presp.statusCode = 201 → presp.JSON201 = some body →
      (registerHost api svc hostname ipAddress osVersion goos).service.hostRid =
        body.hostRid ∧
      (registerHost api svc hostname ipAddress osVersion
          goos).service.config.hostRegistration.hostRid = body.hostRid ∧
      (registerHost api svc hostname ipAddress osVersion goos).effects.configSaves = 1) ∧
    (¬ (presp.statusCode = 201 ∧ presp.JSON201.isSome) →
      (registerHost api svc hostname ipAddress osVersion goos).service = svc ∧
      (registerHost api svc hostname ipAddress osVersion goos).effects.configSaves = 0) := by
  by_cases hr : svc.config.hostRegistration.hostRid ≠ ""
  · rcases hno with h | ⟨gr, hget, hbad⟩
    · exact absurd h hr
    · have hred : registerHost api svc hostname ipAddress osVersion goos =
          createHost api svc hostname ipAddress osVersion goos
            { lookupCalls := 1, createCalls := 0, configSaves := 0 } := by
        unfold registerHost
        rw [if_pos hr, hget]
        exact if_neg hbad
      rw [hred]
      exact createHost_spec api svc hostname ipAddress osVersion goos
        { lookupCalls := 1, createCalls := 0, configSaves := 0 } presp hpost
  · have hred : registerHost api svc hostname ipAddress osVersion goos =
        createHost api svc hostname ipAddress osVersion goos
          { lookupCalls := 0, createCalls := 0, configSaves := 0 } := by
      unfold registerHost
      rw [if_neg hr]
    rw [hred]
    exact createHost_spec api svc hostname ipAddress osVersion goos
      { lookupCalls := 0, createCalls := 0, configSaves := 0 } presp hpost

/-- Witness for C3: on the fixture API with no persisted identifier, one
create call is issued and the created identifier `h1` is adopted and
persisted. -/
theorem claim_C3_witness :
    (registerHost apiCreate svcNew "box1" "10.0.0.5" "Unknown" "linux").effects.createCalls
      = 1 ∧
    (((registerHost apiCreate svcNew "box1" "10.0.0.5" "Unknown" "linux").error = none) ↔
      ((201 : Nat) = 201 ∧ (some { hostRid := "h1" } : Option HostResponse).isSome)) ∧
    (∀ body : HostResponse, (201 : Nat) = 201 →
      (some { hostRid := "h1" } : Option HostResponse) = some body →
      (registerHost apiCreate svcNew "box1" "10.0.0.5" "Unknown" "linux").service.hostRid =
        body.hostRid ∧
      (registerHost apiCreate svcNew "box1" "10.0.0.5" "Unknown"
          "linux").service.config.hostRegistration.hostRid = body.hostRid ∧
      (registerHost apiCreate svcNew "box1" "10.0.0.5" "Unknown" "linux").effects.configSaves
        = 1) ∧
    (¬ ((201 : Nat) = 201 ∧ (some { hostRid := "h1" } : Option HostResponse).isSome) →
      (registerHost apiCreate svcNew "box1" "10.0.0.5" "Unknown" "linux").service = svcNew ∧
      (registerHost apiCreate svcNew "box1" "10.0.0.5" "Unknown" "linux").effects.configSaves
        = 0) :=
  claim_C3 apiCreate svcNew "box1" "10.0.0.5" "Unknown" "linux"
    { statusCode := 201, JSON201 := some { hostRid := "h1" } }
    (Or.inl rfl) rfl

/-- Claim C8: with a persisted identifier whose lookup fails at the
transport, resolution returns an error and abandons the attempt: the
service state is unchanged (no identity assigned, no config write), no
create call is issued, and exactly one lookup call was made (no retry). -/
theorem claim_C8 (api : Api) (svc : RegService)
    (hostname ipAddress osVersion goos : String) (e : String)
    (hrid : svc.config.hostRegistration.hostRid ≠ "")
    (hget : api.getHost svc.config.hostRegistration.hostRid = Except.error e) :
    (registerHost api svc hostname ipAddress osVersion goos).error =
      some ("failed to check host existence: " ++ e) ∧
    (registerHost api svc hostname ipAddress osVersion goos).service = svc ∧
    (registerHost api svc hostname ipAddress osVersion goos).effects =
      { lookupCalls := 1, createCalls := 0, configSaves := 0 } := by
  have hred : registerHost api svc hostname ipAddress osVersion goos =
      { error := some ("failed to check host existence: " ++ e), service := svc,
        effects := { lookupCalls := 1, createCalls := 0, configSaves := 0 } } := by
    unfold registerHost
    rw [if_pos hrid, hget]
  rw [hred]
  exact ⟨rfl, rfl, rfl⟩

/-- Witness for C8: on the fixture API whose transport is down, resolution
with persisted identifier `h1` fails, leaves the service unchanged and
issues no create call. -/
theorem claim_C8_witness :
    (registerHost apiDown svcFix "box1" "10.0.0.5" "Unknown" "linux").error =
      some ("failed to check host existence: " ++ "connection refused") ∧
    (registerHost apiDown svcFix "box1" "10.0.0.5" "Unknown" "linux").service = svcFix ∧
    (registerHost apiDown svcFix "box1" "10.0.0.5" "Unknown" "linux").effects =
      { lookupCalls := 1, createCalls := 0, configSaves := 0 } :=
  claim_C8 apiDown svcFix "box1" "10.0.0.5" "Unknown" "linux" "connection refused"
    (by decide) rfl

/-- Claim C9: when the local hostname resolves to an address list, local IP
resolution never fails: it returns the first non-loopback IPv4 address in
the list when one exists, and the loopback literal `127.0.0.1` otherwise,
so registration is never blocked by this selection. -/
theorem claim_C9 (env : SysEnv) (hostname : String) (addrs : List IPAddr)
    (hhost : env.hostnameRes = Except.ok hostname)
    (hlook : env.lookupIP hostname = Except.ok addrs) :
    getLocalIP env =
      Except.ok
        (match addrs.find? (fun a => !a.isLoopback && a.isIPv4) with
         | some a => a.repr
         | none => "127.0.0.1") ∧
    (addrs.find? (fun a => !a.isLoopback && a.isIPv4) = none →
      getLocalIP env = Except.ok "127.0.0.1") := by
  have hmain : getLocalIP env =
      Except.ok
        (match addrs.find? (fun a => !a.isLoopback && a.isIPv4) with
         | some a => a.repr
         | none => "127.0.0.1") := by
    unfold getLocalIP
    rw [hhost]
    show (match env.lookupIP hostname with
      | Except.error e => Except.error e
      | Except.ok addrs => Except.ok (firstNonLoopbackIPv4 addrs)) = _
    rw [hlook]
    exact congrArg Except.ok (firstNonLoopbackIPv4_eq addrs)
  refine ⟨hmain, ?_⟩
  intro hfind
  rw [hmain, hfind]

/-- Witness for C9: on the fixture environment whose hostname resolves to a
loopback address followed by `10.0.0.5`, local IP resolution returns
`10.0.0.5`. -/
theorem claim_C9_witness :
    getLocalIP sysEnvFix = Except.ok "10.0.0.5" := by
  have h := (claim_C9 sysEnvFix "box1"
    [{ isLoopback := true, isIPv4 := true, repr := "127.0.0.1" },
     { isLoopback := false, isIPv4 := true, repr := "10.0.0.5" }] rfl rfl).1
  rw [h]
  rfl

/-- Claim C10: with an empty registration endpoint URL, `Start` returns no
error and performs nothing: no registration attempt, no identity
assignment, no heartbeat loop, no API call and no config save. -/
theorem claim_C10 (env : SysEnv) (api : Api) (svc : RegService)
    (hurl : svc.config.hostRegistration.sprinterURL = "") :
    hostRegServiceStart env api svc =
      { error := none, service := svc, registerCalled := false,
        heartbeatStarted := false,
        effects := { lookupCalls := 0, createCalls := 0, configSaves := 0 } } := by
  unfold hostRegServiceStart
  rw [if_pos hurl]

/-- Witness for C10: the unconfigured fixture service starts successfully
while doing nothing. -/
theorem claim_C10_witness :
    hostRegServiceStart sysEnvFix apiFix svcUnconfigured =
      { error := none, service := svcUnconfigured, registerCalled := false,
        heartbeatStarted := false,
        effects := { lookupCalls := 0, createCalls := 0, configSaves := 0 } } :=
  claim_C10 sysEnvFix apiFix svcUnconfigured rfl
